import Mathlib

/-!
Shallow embedding of the Tuya authentication plugin
(`pulsar-client-cpp/lib/auth/AuthTuya.{h,cc}`) from the
`fundacaocerti/pulsar` repository.

The C++ fragment defines two value types:
* `AuthDataTuya` — a credential holder storing an access id, an access
  key and a fixed command-data string;
* `AuthTuya` — an authentication provider holding one `AuthDataTuya`
  and exposing it through `getAuthData`, plus three `create` factory
  overloads and a constant `getAuthMethodName`.

Every member function of the fragment is a pure accessor or a pure
factory, so the embedding uses plain Lean structures and functions.
The external collaborator `parseDefaultFormatAuthParams` (not part of
this fragment) is abstracted as a function parameter.
-/

namespace Pulsar

/-- The pulsar `Result` status codes, restricted to the constructors the
fragment can produce plus a generic error to keep the type non-trivial. -/
inductive Result where
  | ResultOk : Result
  | ResultUnknownError : Result
deriving DecidableEq, Repr

/-- `ParamMap` (`std::map<std::string, std::string>`), embedded as an
association list of key/value pairs. -/
def ParamMap : Type := List (String × String)

/-- `std::map::operator[]` read semantics for a string-valued map: the
mapped value when the key is present, and the default-constructed empty
string when it is absent. -/
def ParamMap.lookupDefault (m : ParamMap) (k : String) : String :=
  match List.find? (fun p => p.1 == k) m with
  | some p => p.2
  | none => ""

/-- The credential holder `AuthDataTuya`: fields `accessId_`,
`accessKey_` and `commandData` from `AuthTuya.h`. -/
structure AuthDataTuya where
  accessId_ : String
  accessKey_ : String
  commandData : String
deriving DecidableEq, Repr

namespace AuthDataTuya

/-- The constructor `AuthDataTuya::AuthDataTuya(id, key)`: stores `id`
and `key` verbatim and sets `commandData` to the fixed literal
`\x7b"username":"","password":""\x7d`. -/
def make (id key : String) : AuthDataTuya :=
  { accessId_ := id
    accessKey_ := key
    commandData := "\x7b\"username\":\"\",\"password\":\"\"\x7d" }

/-- `AuthDataTuya::hasDataForHttp()` — returns `false`. -/
def hasDataForHttp (_d : AuthDataTuya) : Bool := false

/-- `AuthDataTuya::hasDataForTuya()` — returns `true`. -/
def hasDataForTuya (_d : AuthDataTuya) : Bool := true

/-- `AuthDataTuya::getTuyaAccessId()` — returns the stored `accessId_`. -/
def getTuyaAccessId (d : AuthDataTuya) : String := d.accessId_

/-- `AuthDataTuya::getTuyaAccessKey()` — returns the stored `accessKey_`. -/
def getTuyaAccessKey (d : AuthDataTuya) : String := d.accessKey_

/-- `AuthDataTuya::getCommandData()` — returns the stored `commandData`. -/
def getCommandData (d : AuthDataTuya) : String := d.commandData

/-- `AuthDataTuya::hasDataFromCommand()` — returns `true`. -/
def hasDataFromCommand (_d : AuthDataTuya) : Bool := true

/-- The member function
`void AuthDataTuya::AuthenticationDataProvider(id, key)`: its body is
empty, so it returns the receiver's state unchanged. -/
def authenticationDataProviderFn (d : AuthDataTuya) (_id _key : String) :
    AuthDataTuya := d

end AuthDataTuya

/-- The provider `AuthTuya`, holding the `authDataTuya_` credential
object handed to its constructor. -/
structure AuthTuya where
  authDataTuya_ : AuthDataTuya
deriving DecidableEq, Repr

namespace AuthTuya

/-- `AuthTuya::create(id, key)`: allocates a new `AuthDataTuya(id, key)`
and wraps it in a new `AuthTuya`. -/
def create (id key : String) : AuthTuya :=
  { authDataTuya_ := AuthDataTuya.make id key }

/-- `AuthTuya::create(ParamMap&)`: looks up `"accessId"` and
`"accessKey"` with `operator[]` semantics and forwards to
`create(id, key)`. -/
def createFromMap (params : ParamMap) : AuthTuya :=
  create (params.lookupDefault "accessId") (params.lookupDefault "accessKey")

/-- `AuthTuya::create(const std::string&)`: parses the parameter string
with the external `parseDefaultFormatAuthParams` (abstracted as the
fallible function `parse`, since it lives outside this fragment) and
forwards the resulting map to `createFromMap`. Any parse failure
propagates unmodified. -/
def createFromString {ε : Type} (parse : String → Except ε ParamMap)
    (authParamsString : String) : Except ε AuthTuya :=
  (parse authParamsString).map createFromMap

/-- `AuthTuya::getAuthMethodName()` — returns the constant `"auth1"`. -/
def getAuthMethodName (_a : AuthTuya) : String := "auth1"

/-- `AuthTuya::getAuthData(AuthenticationDataPtr&)`: writes the held
`authDataTuya_` into the caller's output slot and returns `ResultOk`;
embedded as returning the pair (output slot value, status). -/
def getAuthData (a : AuthTuya) : AuthDataTuya × Result :=
  (a.authDataTuya_, Result.ResultOk)

end AuthTuya

/-! ## Claims -/

/-- C1: for every pair of strings `id` and `key`, `AuthTuya.create id key`
followed by `getAuthData` yields a credential object whose
`getTuyaAccessId` equals `id` and whose `getTuyaAccessKey` equals `key`,
exactly as supplied — an identity round-trip with no transformation. -/
theorem create_getAuthData_roundtrip (id key : String) :
    ((AuthTuya.create id key).getAuthData.1.getTuyaAccessId = id) ∧
    ((AuthTuya.create id key).getAuthData.1.getTuyaAccessKey = key) :=
  ⟨rfl, rfl⟩

/-- C2: `createFromMap` is total (never raises); when the map contains
`"accessId" ↦ a` it yields access id `a`, when it contains
`"accessKey" ↦ k` it yields access key `k`, and when either key is
absent the corresponding credential field is the empty string. -/
theorem createFromMap_fields (params : ParamMap) :
    ((AuthTuya.createFromMap params).getAuthData.1.getTuyaAccessId =
        params.lookupDefault "accessId") ∧
    ((AuthTuya.createFromMap params).getAuthData.1.getTuyaAccessKey =
        params.lookupDefault "accessKey") ∧
    ((List.find? (fun p => p.1 == "accessId") params = none) →
      (AuthTuya.createFromMap params).getAuthData.1.getTuyaAccessId = "") ∧
    ((List.find? (fun p => p.1 == "accessKey") params = none) →
      (AuthTuya.createFromMap params).getAuthData.1.getTuyaAccessKey = "") := by
  refine ⟨rfl, rfl, ?_, ?_⟩ <;>
    · intro h
      simp [AuthTuya.createFromMap, AuthTuya.create, AuthTuya.getAuthData,
        AuthDataTuya.make, AuthDataTuya.getTuyaAccessId,
        AuthDataTuya.getTuyaAccessKey, ParamMap.lookupDefault, h]

/-- Witness for C2: on the concrete empty parameter map, both keys are
absent and both credential fields come out as the empty string. -/
theorem createFromMap_fields_witness :
    ((AuthTuya.createFromMap []).getAuthData.1.getTuyaAccessId
        = ParamMap.lookupDefault [] "accessId") ∧
    ((AuthTuya.createFromMap []).getAuthData.1.getTuyaAccessKey
        = ParamMap.lookupDefault [] "accessKey") ∧
    ((List.find? (fun p => p.1 == "accessId") ([] : ParamMap) = none) →
      (AuthTuya.createFromMap []).getAuthData.1.getTuyaAccessId = "") ∧
    ((List.find? (fun p => p.1 == "accessKey") ([] : ParamMap) = none) →
      (AuthTuya.createFromMap []).getAuthData.1.getTuyaAccessKey = "") :=
  createFromMap_fields []

/-- C3: `getAuthMethodName` returns the same non-empty constant string
(`"auth1"` in the variant present in the source) on every call and for
every instance. -/
theorem getAuthMethodName_constant (a b : AuthTuya) :
    a.getAuthMethodName = "auth1" ∧
    a.getAuthMethodName ≠ "" ∧
    a.getAuthMethodName = b.getAuthMethodName :=
  ⟨rfl, by simp [AuthTuya.getAuthMethodName], rfl⟩

/-- C4: for every constructed `AuthDataTuya`, regardless of `id` and
`key`, `getCommandData` returns exactly the literal
`\x7b"username":"","password":""\x7d`; the payload never reflects the
stored credentials. -/
theorem getCommandData_fixed (id key : String) :
    (AuthDataTuya.make id key).getCommandData =
      "\x7b\"username\":\"\",\"password\":\"\"\x7d" :=
  rfl

/-- C5: for every constructed `AuthDataTuya`, `hasDataForTuya` returns
`true` and `hasDataForHttp` returns `false`. -/
theorem hasData_flags (d : AuthDataTuya) :
    d.hasDataForTuya = true ∧ d.hasDataForHttp = false :=
  ⟨rfl, rfl⟩

/-- C6: for every `AuthTuya` instance, `getAuthData` assigns the held
credential object — the one installed at construction — into the output
slot and returns `ResultOk`; it never fails, whatever the state. -/
theorem getAuthData_ok (a : AuthTuya) :
    a.getAuthData = (a.authDataTuya_, Result.ResultOk) ∧
    (∀ id key : String,
      (AuthTuya.create id key).getAuthData.1 = AuthDataTuya.make id key) :=
  ⟨rfl, fun _ _ => rfl⟩

/-- C7: the string overload of `create` only parses and forwards: for
every parser `parse` and string `s`, it succeeds with provider
`createFromMap m` exactly when `parse s` succeeds with map `m`, and it
fails with error `e` exactly when `parse s` fails with `e`. -/
theorem createFromString_refines {ε : Type} (parse : String → Except ε ParamMap)
    (s : String) :
    (∀ a : AuthTuya, AuthTuya.createFromString parse s = Except.ok a ↔
      ∃ m : ParamMap, parse s = Except.ok m ∧ a = AuthTuya.createFromMap m) ∧
    (∀ e : ε, AuthTuya.createFromString parse s = Except.error e ↔
      parse s = Except.error e) := by
  unfold AuthTuya.createFromString
  cases hp : parse s with
  | ok m =>
      constructor
      · intro a
        constructor
        · intro h
          have h' : Except.ok (AuthTuya.createFromMap m) = Except.ok a := h
          exact ⟨m, rfl, (Except.ok.inj h').symm⟩
        · rintro ⟨m', hm', ha⟩
          cases Except.ok.inj hm'
          rw [ha]
          rfl
      · intro e
        constructor
        · intro h
          have h' : Except.ok (AuthTuya.createFromMap m) =
              (Except.error e : Except ε AuthTuya) := h
          exact Except.noConfusion h'
        · intro h
          exact Except.noConfusion h
  | error e' =>
      constructor
      · intro a
        constructor
        · intro h
          have h' : (Except.error e' : Except ε AuthTuya) = Except.ok a := h
          exact Except.noConfusion h'
        · rintro ⟨m', hm', ha⟩
          exact Except.noConfusion hm'
      · intro e
        constructor
        · intro h
          have h' : (Except.error e' : Except ε AuthTuya) = Except.error e := h
          rw [Except.error.inj h']
        · intro h
          rw [Except.error.inj h]
          rfl

/-- C8: the credential-holder constructor is total and sets the access-id
and access-key fields together in the single construction step, and no
operation of `AuthDataTuya` or `AuthTuya` afterwards changes either
field — the only state-touching member function returns the state
unchanged — so no partial state ever exists. -/
theorem make_no_partial_state (id key : String) :
    ((AuthDataTuya.make id key).accessId_ = id ∧
      (AuthDataTuya.make id key).accessKey_ = key) ∧
    (∀ (d : AuthDataTuya) (i k : String),
      (d.authenticationDataProviderFn i k).accessId_ = d.accessId_ ∧
      (d.authenticationDataProviderFn i k).accessKey_ = d.accessKey_) ∧
    (∀ a : AuthTuya,
      a.getAuthData.1.accessId_ = a.authDataTuya_.accessId_ ∧
      a.getAuthData.1.accessKey_ = a.authDataTuya_.accessKey_) :=
  ⟨⟨rfl, rfl⟩, fun _ _ _ => ⟨rfl, rfl⟩, fun _ => ⟨rfl, rfl⟩⟩

/-- C9: for every constructed `AuthDataTuya`, `hasDataFromCommand`
returns `true`, even though the command payload is a fixed placeholder
unrelated to the stored credentials. -/
theorem hasDataFromCommand_true (d : AuthDataTuya) :
    d.hasDataFromCommand = true ∧
    (∀ id key : String,
      (AuthDataTuya.make id key).getCommandData =
        "\x7b\"username\":\"\",\"password\":\"\"\x7d") :=
  ⟨rfl, fun _ _ => rfl⟩

/-- C10: the member function `AuthDataTuya::AuthenticationDataProvider`
is a no-op: for any receiver and any arguments it leaves `accessId_`,
`accessKey_` and `commandData` unchanged and has no other effect on the
holder. -/
theorem authenticationDataProviderFn_noop (d : AuthDataTuya)
    (id key : String) :
    (d.authenticationDataProviderFn id key).accessId_ = d.accessId_ ∧
    (d.authenticationDataProviderFn id key).accessKey_ = d.accessKey_ ∧
    (d.authenticationDataProviderFn id key).commandData = d.commandData ∧
    d.authenticationDataProviderFn id key = d :=
  ⟨rfl, rfl, rfl, rfl⟩

end Pulsar
